import Mathlib

/-!
Verification of the cdparanoia Rust wrapper (`cdparanoia/src/lib.rs`).

Shallow embedding: C `int`/`long` values are modelled as `Int` (with explicit
wrapping where the source uses wrapping operations), Rust `Result<T, Error>`
as `Except Error T`, fallible narrowing conversions (`try_into().unwrap()`)
as `Option` where `none` marks the abort path, and the opaque C extraction
engine as explicit state passing over a session record, modelled from the
specification where the engine's code is outside this repository.
-/

/-! ## Error taxonomy (`Error`, `ErrorCode`) -/

/-- Embedding of `i32::wrapping_abs`: the absolute value, except that the
minimum `i32` maps to itself.  Faithful for arguments in the `i32` range. -/
def wrappingAbs (raw : Int) : Int :=
  if raw = -2147483648 then -2147483648 else (raw.natAbs : Int)

deriving instance DecidableEq for Except

/-- Embedding of the `Error` struct: a raw negative status code. -/
structure Error where
  raw : Int
deriving DecidableEq, Repr

/-- Embedding of the `ErrorCode` enum. -/
inductive ErrorCode
  | NoReadMode
  | NoTocLeadout
  | IllegalTrackCount
  | NoTocHeader
  | NoTocEntry
  | CannotReadAnyData
  | UnknownReadError
  | NoCdromModel
  | IllegalToc
  | InterfaceNotSupported
  | PermissionDenied
  | KernelMemoryError
  | DeviceNotOpen
  | InvalidTrackNumber
  | NoAudioTracks
  | NoMediumPresent
  | OptionNotSupported
deriving DecidableEq, Repr

/-- The match arms of `ErrorCode::from_raw`, applied to the already
wrapped absolute value. -/
def lookupMagnitude (a : Int) : Option ErrorCode :=
  if a = 1 then some .NoReadMode
  else if a = 2 then some .NoTocLeadout
  else if a = 3 then some .IllegalTrackCount
  else if a = 4 then some .NoTocHeader
  else if a = 5 then some .NoTocEntry
  else if a = 6 then some .CannotReadAnyData
  else if a = 7 then some .UnknownReadError
  else if a = 8 then some .NoCdromModel
  else if a = 9 then some .IllegalToc
  else if a = 100 then some .InterfaceNotSupported
  else if a = 102 then some .PermissionDenied
  else if a = 300 then some .KernelMemoryError
  else if a = 400 then some .DeviceNotOpen
  else if a = 401 then some .InvalidTrackNumber
  else if a = 403 then some .NoAudioTracks
  else if a = 404 then some .NoMediumPresent
  else if a = 405 then some .OptionNotSupported
  else none

/-- Embedding of `ErrorCode::from_raw`: match on `raw.wrapping_abs()`. -/
def ErrorCode.from_raw (raw : Int) : Option ErrorCode :=
  lookupMagnitude (wrappingAbs raw)

/-- Embedding of `Error::from_raw`: non-negative raw statuses are success. -/
def Error.from_raw (raw : Int) : Except Error Unit :=
  if 0 ≤ raw then .ok () else .error ⟨raw⟩

/-- Embedding of `Error::from_raw_long` (identical test on a `c_long`). -/
def Error.from_raw_long (raw : Int) : Except Error Unit :=
  if 0 ≤ raw then .ok () else .error ⟨raw⟩

/-- Embedding of `Error::as_raw`. -/
def Error.as_raw (e : Error) : Int :=
  e.raw

/-- Embedding of `Error::code`. -/
def Error.code (e : Error) : Option ErrorCode :=
  ErrorCode.from_raw e.raw

/-- Embedding of the `displaydoc::Display` derive on `ErrorCode`: each
variant displays its doc-comment text. -/
def ErrorCode.displayDoc : ErrorCode → String
  | .NoReadMode => "001: Unable to set CDROM to read audio mode"
  | .NoTocLeadout => "002: Unable to read table of contents lead-out"
  | .IllegalTrackCount => "003: CDROM reporting illegal number of tracks"
  | .NoTocHeader => "004: Unable to read table of contents header"
  | .NoTocEntry => "005: Unable to read table of contents entry"
  | .CannotReadAnyData => "006: Could not read any data from drive"
  | .UnknownReadError => "007: Unknown, unrecoverable error reading data"
  | .NoCdromModel => "008: Unable to identify CDROM model"
  | .IllegalToc => "009: CDROM reporting illegal table of contents"
  | .InterfaceNotSupported => "100: Interface not supported"
  | .PermissionDenied => "102: Permission denied on cdrom (ioctl) device"
  | .KernelMemoryError => "300: Kernel memory error"
  | .DeviceNotOpen => "400: Device not open"
  | .InvalidTrackNumber => "401: Invalid track number"
  | .NoAudioTracks => "403: No audio tracks on disc"
  | .NoMediumPresent => "404: No medium present"
  | .OptionNotSupported => "405: Option not supported by drive"

/-- Embedding of `impl fmt::Display for Error`. -/
def Error.display (e : Error) : String :=
  match e.code with
  | some code => code.displayDoc
  | none => "Unknown error code " ++ toString e.raw

/-- The taxonomy table of the spec: magnitude paired with its condition. -/
def errorTable : List (Nat × ErrorCode) :=
  [(1, .NoReadMode), (2, .NoTocLeadout), (3, .IllegalTrackCount),
   (4, .NoTocHeader), (5, .NoTocEntry), (6, .CannotReadAnyData),
   (7, .UnknownReadError), (8, .NoCdromModel), (9, .IllegalToc),
   (100, .InterfaceNotSupported), (102, .PermissionDenied),
   (300, .KernelMemoryError), (400, .DeviceNotOpen),
   (401, .InvalidTrackNumber), (403, .NoAudioTracks),
   (404, .NoMediumPresent), (405, .OptionNotSupported)]

/-- The magnitudes appearing in the taxonomy table. -/
def errorMagnitudes : List Nat :=
  errorTable.map Prod.fst

/-! ## Drive handle (`CdromDrive`) -/

/-- Embedding of `u32` → `c_int` narrowing via `try_into().unwrap()`:
`none` marks the abort (unwrap on a failed conversion) path. -/
def u32_to_c_int (n : Nat) : Option Int :=
  if n < 2147483648 then some (n : Int) else none

/-- Embedding of the `CdromDrive` handle state.  The table-of-contents
data is an oracle supplied by the engine at identification time. -/
structure CdromDrive where
  opened : Bool
  numTracks : Int
  firstSectorOf : Int → Int
  lastSectorOf : Int → Int
  channelsOf : Int → Int
  audiopOf : Int → Int
  copypOf : Int → Int
  preempOf : Int → Int

/-- Modelled from the spec: the engine call `cdda_track_firstsector`, whose
code is outside this repository.  Query operations require Open, else fail
with DeviceNotOpen (-400); out-of-range tracks fail with
InvalidTrackNumber (-401); otherwise the TOC answer (non-negative). -/
def cdda_track_firstsector (d : CdromDrive) (track : Int) : Int :=
  if !d.opened then -400
  else if track < 1 ∨ track > d.numTracks then -401
  else (d.firstSectorOf track).natAbs

/-- Modelled from the spec: the engine call `cdda_track_lastsector`
(same contract as `cdda_track_firstsector`). -/
def cdda_track_lastsector (d : CdromDrive) (track : Int) : Int :=
  if !d.opened then -400
  else if track < 1 ∨ track > d.numTracks then -401
  else (d.lastSectorOf track).natAbs

/-- Modelled from the spec: the engine call `cdda_track_channels`. -/
def cdda_track_channels (d : CdromDrive) (track : Int) : Int :=
  if !d.opened then -400
  else if track < 1 ∨ track > d.numTracks then -401
  else (d.channelsOf track).natAbs

/-- Modelled from the spec: the engine call `cdda_track_audiop`. -/
def cdda_track_audiop (d : CdromDrive) (track : Int) : Int :=
  if !d.opened then -400
  else if track < 1 ∨ track > d.numTracks then -401
  else (d.audiopOf track).natAbs

/-- Modelled from the spec: the engine call `cdda_track_copyp`. -/
def cdda_track_copyp (d : CdromDrive) (track : Int) : Int :=
  if !d.opened then -400
  else if track < 1 ∨ track > d.numTracks then -401
  else (d.copypOf track).natAbs

/-- Modelled from the spec: the engine call `cdda_track_preemp`. -/
def cdda_track_preemp (d : CdromDrive) (track : Int) : Int :=
  if !d.opened then -400
  else if track < 1 ∨ track > d.numTracks then -401
  else (d.preempOf track).natAbs

/-- Embedding of `CdromDrive::track_first_sector`: the `u32` track is
narrowed with `try_into().unwrap()` (abort = `none`), the engine result is
classified, and a success is returned as `u64`. -/
def CdromDrive.track_first_sector (d : CdromDrive) (track : Nat) :
    Option (Except Error Nat) :=
  match u32_to_c_int track with
  | none => none
  | some t =>
      let result := cdda_track_firstsector d t
      some (match Error.from_raw_long result with
        | .error e => .error e
        | .ok _ => .ok result.toNat)

/-- Embedding of `CdromDrive::track_last_sector`. -/
def CdromDrive.track_last_sector (d : CdromDrive) (track : Nat) :
    Option (Except Error Nat) :=
  match u32_to_c_int track with
  | none => none
  | some t =>
      let result := cdda_track_lastsector d t
      some (match Error.from_raw_long result with
        | .error e => .error e
        | .ok _ => .ok result.toNat)

/-- Embedding of `CdromDrive::track_channels`. -/
def CdromDrive.track_channels (d : CdromDrive) (track : Nat) :
    Option (Except Error Nat) :=
  match u32_to_c_int track with
  | none => none
  | some t =>
      let result := cdda_track_channels d t
      some (match Error.from_raw result with
        | .error e => .error e
        | .ok _ => .ok result.toNat)

/-- Embedding of `CdromDrive::track_audiop`. -/
def CdromDrive.track_audiop (d : CdromDrive) (track : Nat) :
    Option (Except Error Bool) :=
  match u32_to_c_int track with
  | none => none
  | some t =>
      let result := cdda_track_audiop d t
      some (match Error.from_raw result with
        | .error e => .error e
        | .ok _ => .ok (result != 0))

/-- Embedding of `CdromDrive::track_copyp`. -/
def CdromDrive.track_copyp (d : CdromDrive) (track : Nat) :
    Option (Except Error Bool) :=
  match u32_to_c_int track with
  | none => none
  | some t =>
      let result := cdda_track_copyp d t
      some (match Error.from_raw result with
        | .error e => .error e
        | .ok _ => .ok (result != 0))

/-- Embedding of `CdromDrive::track_preemp`. -/
def CdromDrive.track_preemp (d : CdromDrive) (track : Nat) :
    Option (Except Error Bool) :=
  match u32_to_c_int track with
  | none => none
  | some t =>
      let result := cdda_track_preemp d t
      some (match Error.from_raw result with
        | .error e => .error e
        | .ok _ => .ok (result != 0))

/-! ## Extraction session (`CdromParanoia`) -/

/-- Modelled from the spec: `CD_FRAMEWORDS` from the generated bindings
(spec: a frame is 1176 16-bit samples, 588 stereo pairs). -/
def CD_FRAMEWORDS : Nat := 1176

/-- Truncation of an integer to a signed 16-bit sample, as stored in the
engine's `int16_t` buffer. -/
def toInt16 (x : Int) : Int :=
  (x + 32768) % 65536 - 32768

/-- Modelled from the spec: the opaque correction engine state behind
`cdrom_paranoia`.  The disc contents and the progress events the engine
would emit are oracles, since the engine's code is outside this
repository; the spec fixes only the cursor, the disc bounds, and the
shape of the results. -/
structure Paranoia where
  cursor : Int
  firstSector : Int
  lastSector : Int
  disc : Int → Nat → Int
  eventsAt : Int → Nat → List (Int × Int)

/-- One sector's worth of corrected samples: a full frame of
`CD_FRAMEWORDS` 16-bit values read from the disc oracle. -/
def readFrame (p : Paranoia) (s : Int) : List Int :=
  (List.range CD_FRAMEWORDS).map fun i => toInt16 (p.disc s i)

/-- Modelled from the spec: the engine call `paranoia_read_limited` —
advances the cursor by one sector, appends the emitted progress events to
the sink's log, and always returns a full best-effort frame (the engine
treats exhausted retries as a successful call). -/
def paranoia_read_limited (p : Paranoia) (maxRetries : Nat)
    (log : List (Int × Int)) :
    Paranoia × List (Int × Int) × List Int :=
  ({ p with cursor := p.cursor + 1 },
   log ++ p.eventsAt p.cursor maxRetries,
   readFrame p p.cursor)

/-- Modelled from the spec: the engine call `paranoia_read`, identical to
`paranoia_read_limited` with a fixed default retry budget of twenty. -/
def paranoia_read (p : Paranoia) (log : List (Int × Int)) :
    Paranoia × List (Int × Int) × List Int :=
  paranoia_read_limited p 20 log

/-- The libc whence constant `SEEK_SET`. -/
def SEEK_SET : Int := 0

/-- The libc whence constant `SEEK_CUR`. -/
def SEEK_CUR : Int := 1

/-- The libc whence constant `SEEK_END`. -/
def SEEK_END : Int := 2

/-- The absolute sector a seek resolves to, from the whence mode. -/
def seekTarget (p : Paranoia) (index : Int) (mode : Int) : Int :=
  if mode = SEEK_SET then index
  else if mode = SEEK_CUR then p.cursor + index
  else p.lastSector + index

/-- Modelled from the spec: the engine call `paranoia_seek` — computes the
target sector from the whence mode, rejects a negative or out-of-bounds
position with a negative status and an unchanged cursor, and otherwise
returns the target, which becomes the new cursor. -/
def paranoia_seek (p : Paranoia) (index : Int) (mode : Int) :
    Int × Paranoia :=
  if seekTarget p index mode < 0 ∨ seekTarget p index mode < p.firstSector ∨
      seekTarget p index mode > p.lastSector then
    (-9999, p)
  else
    (seekTarget p index mode, { p with cursor := seekTarget p index mode })

/-- Embedding of `std::io::SeekFrom`. -/
inductive SeekFrom
  | start (x : Nat)
  | fromEnd (x : Int)
  | current (x : Int)

/-- The whence mode of the `match pos` in `CdromParanoia::seek`. -/
def SeekFrom.whence : SeekFrom → Int
  | .start _ => SEEK_SET
  | .fromEnd _ => SEEK_END
  | .current _ => SEEK_CUR

/-- The index of the `match pos` in `CdromParanoia::seek`. -/
def SeekFrom.seekIndex : SeekFrom → Int
  | .start x => (x : Int)
  | .fromEnd x => x
  | .current x => x

/-- Embedding of the `CdromParanoia` session: it owns its `CdromDrive`
and the engine state. -/
structure CdromParanoia where
  drive : CdromDrive
  paranoia : Paranoia

/-- Embedding of `CdromParanoia::init`: consumes the drive by move and
pairs it with the engine state created by `paranoia_init`. -/
def CdromParanoia.init (drive : CdromDrive) (engineState : Paranoia) :
    CdromParanoia :=
  { drive := drive, paranoia := engineState }

/-- Embedding of `CdromParanoia::seek`: translates the `SeekFrom` into a
whence mode and index, calls the engine, classifies the status, and
returns a success as `u64`. -/
def CdromParanoia.seek (cp : CdromParanoia) (pos : SeekFrom) :
    Except Error Nat × CdromParanoia :=
  match Error.from_raw_long (paranoia_seek cp.paranoia pos.seekIndex pos.whence).1 with
  | .error e =>
      (.error e,
       { cp with paranoia := (paranoia_seek cp.paranoia pos.seekIndex pos.whence).2 })
  | .ok _ =>
      (.ok (paranoia_seek cp.paranoia pos.seekIndex pos.whence).1.toNat,
       { cp with paranoia := (paranoia_seek cp.paranoia pos.seekIndex pos.whence).2 })

/-- Embedding of `CdromParanoia::read_limited`: the `u32` retry budget is
narrowed with `try_into().unwrap()` (abort = `none`); otherwise the
engine is called and the full frame returned. -/
def CdromParanoia.read_limited (cp : CdromParanoia)
    (log : List (Int × Int)) (maxRetries : Nat) :
    Option (CdromParanoia × List (Int × Int) × List Int) :=
  match u32_to_c_int maxRetries with
  | none => none
  | some _ =>
      let r := paranoia_read_limited cp.paranoia maxRetries log
      some ({ cp with paranoia := r.1 }, r.2.1, r.2.2)

/-- Embedding of `CdromParanoia::read`: calls `paranoia_read` (no retry
argument, no narrowing). -/
def CdromParanoia.read (cp : CdromParanoia) (log : List (Int × Int)) :
    CdromParanoia × List (Int × Int) × List Int :=
  let r := paranoia_read cp.paranoia log
  ({ cp with paranoia := r.1 }, r.2.1, r.2.2)

/-! ## Method-surface model for the ownership claims -/

/-- Receiver kinds of the public `CdromDrive` methods. -/
inductive Receiver
  | sharedRef
  | owned
deriving DecidableEq, Fintype

/-- The public methods of `CdromDrive`, read from the source. -/
inductive DriveMethod
  | set_verbosity
  | open'
  | set_speed
  | disc_first_sector
  | track_first_sector
  | track_last_sector
  | sector_get_track
  | tracks
  | track_channels
  | track_audiop
  | track_copyp
  | track_preemp
  | messages
  | errors
  | into_raw
deriving DecidableEq, Fintype

/-- Receiver of each `CdromDrive` method, read from the source
signatures: every method takes `&self` except `into_raw`, which consumes
the handle. -/
def DriveMethod.receiver : DriveMethod → Receiver
  | .into_raw => .owned
  | _ => .sharedRef

/-- Whether the spec classifies the method as state-changing
(spec section 4.3 lists `set_verbosity`, `open`, `set_speed` as the
state-changing operations; `into_raw` consumes the handle). -/
def DriveMethod.stateChanging : DriveMethod → Bool
  | .set_verbosity | .open' | .set_speed | .into_raw => true
  | _ => false

/-- A method is callable through the shared borrow returned by
`CdromParanoia::drive` exactly when its receiver is `&self`. -/
def callableViaDriveAccessor (m : DriveMethod) : Bool :=
  m.receiver = Receiver.sharedRef

/-! ## Drop-glue model for the release claims -/

/-- The FFI release calls made by the destructors. -/
inductive FfiCall
  | paranoia_free
  | cdda_close
deriving DecidableEq

/-- Release calls of `impl Drop for CdromDrive`: `cdda_close` once. -/
def CdromDrive.dropGlue : List FfiCall :=
  [.cdda_close]

/-- Release calls on destruction of a `CdromParanoia`: `Drop::drop` runs
`paranoia_free`, then Rust drops the owned `drive` field, which runs
`CdromDrive`'s drop glue. -/
def CdromParanoia.dropGlue : List FfiCall :=
  [.paranoia_free] ++ CdromDrive.dropGlue

/-! ## Concrete sample states for witnesses -/

/-- A concrete opened drive with one ten-sector track. -/
def sampleDrive : CdromDrive :=
  { opened := true
    numTracks := 1
    firstSectorOf := fun _ => 0
    lastSectorOf := fun _ => 9
    channelsOf := fun _ => 2
    audiopOf := fun _ => 1
    copypOf := fun _ => 0
    preempOf := fun _ => 0 }

/-- A concrete engine state over the ten-sector disc of `sampleDrive`. -/
def sampleParanoia : Paranoia :=
  { cursor := 0
    firstSector := 0
    lastSector := 9
    disc := fun _ _ => 0
    eventsAt := fun _ _ => [] }

/-- A concrete session built from the sample drive and engine state. -/
def sampleSession : CdromParanoia :=
  CdromParanoia.init sampleDrive sampleParanoia

/-! ## Theorems -/

/-- C1: for every signed integer `raw` with `raw >= 0`, classification
yields success: `Error::from_raw(raw)` returns `Ok(())`, regardless of the
magnitude of `raw`. -/
theorem error_from_raw_nonneg_ok (raw : Int) (h : 0 ≤ raw) :
    Error.from_raw raw = .ok () := by
  simp [Error.from_raw, h]

theorem error_from_raw_nonneg_ok_witness :
    Error.from_raw 123456789 = .ok () :=
  error_from_raw_nonneg_ok 123456789 (by norm_num)

/-- C2: magnitude lookup is sign-independent — for every raw value whose
magnitude appears in the taxonomy table and `raw ≠ 0`,
`ErrorCode::from_raw(raw) = ErrorCode::from_raw(-raw)` and both equal the
condition the table assigns to that magnitude. -/
theorem errorcode_sign_independent (raw : Int) (c : ErrorCode)
    (hne : raw ≠ 0) (hmem : (raw.natAbs, c) ∈ errorTable) :
    ErrorCode.from_raw raw = some c ∧ ErrorCode.from_raw (-raw) = some c := by
  simp only [errorTable, List.mem_cons, List.not_mem_nil, or_false,
    Prod.mk.injEq] at hmem
  rcases hmem with ⟨h1, rfl⟩|⟨h1, rfl⟩|⟨h1, rfl⟩|⟨h1, rfl⟩|⟨h1, rfl⟩|
    ⟨h1, rfl⟩|⟨h1, rfl⟩|⟨h1, rfl⟩|⟨h1, rfl⟩|⟨h1, rfl⟩|⟨h1, rfl⟩|
    ⟨h1, rfl⟩|⟨h1, rfl⟩|⟨h1, rfl⟩|⟨h1, rfl⟩|⟨h1, rfl⟩|⟨h1, rfl⟩ <;>
    rcases Int.natAbs_eq_iff.mp h1 with rfl | rfl <;> decide

theorem errorcode_sign_independent_witness :
    ErrorCode.from_raw 400 = some .DeviceNotOpen ∧
      ErrorCode.from_raw (-400) = some .DeviceNotOpen :=
  errorcode_sign_independent 400 .DeviceNotOpen (by decide) (by decide)

set_option maxHeartbeats 1600000 in
/-- Helper: a raw value whose magnitude is not in the taxonomy table has
no error code. -/
theorem errorcode_from_raw_eq_none (raw : Int)
    (h : raw.natAbs ∉ errorMagnitudes) : ErrorCode.from_raw raw = none := by
  by_cases hmin : raw = -2147483648
  · subst hmin; decide
  · simp only [errorMagnitudes, errorTable, List.map_cons, List.map_nil,
      List.mem_cons, List.not_mem_nil, or_false] at h
    push_neg at h
    unfold ErrorCode.from_raw wrappingAbs lookupMagnitude
    rw [if_neg hmin]
    repeat rw [if_neg (by omega)]

/-- C3: for every negative raw status whose magnitude is not in the
taxonomy table, `Error::from_raw` yields an error whose `code()` is
`None`, whose `as_raw()` is the original raw unchanged, and whose display
text carries that raw value. -/
theorem unknown_error_preserves_raw (raw : Int) (hneg : raw < 0)
    (hmag : raw.natAbs ∉ errorMagnitudes) :
    Error.from_raw raw = .error ⟨raw⟩ ∧
      (Error.mk raw).code = none ∧
      (Error.mk raw).as_raw = raw ∧
      (Error.mk raw).display = "Unknown error code " ++ toString raw := by
  have hcode : ErrorCode.from_raw raw = none :=
    errorcode_from_raw_eq_none raw hmag
  refine ⟨?_, hcode, rfl, ?_⟩
  · simp only [Error.from_raw, if_neg (by omega : ¬ (0 : Int) ≤ raw)]
  · simp [Error.display, Error.code, hcode]

theorem unknown_error_preserves_raw_witness :
    Error.from_raw (-12345) = .error ⟨-12345⟩ ∧
      (Error.mk (-12345)).code = none ∧
      (Error.mk (-12345)).as_raw = -12345 ∧
      (Error.mk (-12345)).display =
        "Unknown error code " ++ toString (-12345 : Int) :=
  unknown_error_preserves_raw (-12345) (by norm_num) (by decide)

/-- C9: classification is total at the minimum `i32`: the wrapping
absolute value maps `-2^31` to itself, `ErrorCode::from_raw` returns
`None` there, and the classified error preserves the original raw. -/
theorem errorcode_total_at_i32_min :
    wrappingAbs (-2147483648) = -2147483648 ∧
      ErrorCode.from_raw (-2147483648) = none ∧
      Error.from_raw (-2147483648) = .error ⟨-2147483648⟩ ∧
      (Error.mk (-2147483648)).code = none ∧
      (Error.mk (-2147483648)).as_raw = -2147483648 := by
  decide

/-- C5: the convenience read equals the limited read with a retry budget
of twenty — same returned frame, same emitted event sequence, same
session state, for every session state and every event-sink log. -/
theorem read_eq_read_limited_twenty (cp : CdromParanoia)
    (log : List (Int × Int)) :
    cp.read_limited log 20 = some (cp.read log) := by
  rfl

/-- Helper: a truncated sample is a signed 16-bit value. -/
theorem toInt16_bounds (x : Int) : -32768 ≤ toInt16 x ∧ toInt16 x < 32768 := by
  unfold toInt16
  have h1 := Int.emod_nonneg (x + 32768) (by norm_num : (65536 : Int) ≠ 0)
  have h2 := Int.emod_lt_of_pos (x + 32768) (by norm_num : (0 : Int) < 65536)
  omega

/-- Helper: every frame the engine model produces is full (1176 samples)
and each sample is a signed 16-bit value. -/
theorem readFrame_full (p : Paranoia) (s : Int) :
    (readFrame p s).length = CD_FRAMEWORDS ∧
      ∀ x ∈ readFrame p s, -32768 ≤ x ∧ x < 32768 := by
  constructor
  · simp [readFrame]
  · intro x hx
    simp only [readFrame, List.mem_map] at hx
    obtain ⟨i, _, rfl⟩ := hx
    exact toInt16_bounds _

/-- C4 counterexample: with a retry budget of `2^31`, `read_limited` does
not return a frame at all — the `u32` → `c_int` narrowing aborts. -/
theorem read_limited_narrowing_aborts :
    sampleSession.read_limited [] 2147483648 = none := by
  rfl

/-- C4 (amended): for every session state, every event-sink log, and
every retry budget below `2^31`, `read_limited` returns a full frame of
exactly 1176 signed 16-bit samples through its only return channel (no
error alternative exists), and `read` likewise always returns a full
frame of 1176 signed 16-bit samples; budgets of `2^31` and above abort in
the retry-count narrowing instead of returning. -/
theorem read_returns_full_frame (cp : CdromParanoia)
    (log : List (Int × Int)) (r : Nat) (h : r < 2147483648) :
    ∃ cp2 log2 frame,
      cp.read_limited log r = some (cp2, log2, frame) ∧
      frame.length = CD_FRAMEWORDS ∧
      (∀ x ∈ frame, -32768 ≤ x ∧ x < 32768) ∧
      (cp.read log).2.2.length = CD_FRAMEWORDS ∧
      ∀ x ∈ (cp.read log).2.2, -32768 ≤ x ∧ x < 32768 := by
  have hrl : cp.read_limited log r =
      some ({ cp with paranoia :=
                { cp.paranoia with cursor := cp.paranoia.cursor + 1 } },
        log ++ cp.paranoia.eventsAt cp.paranoia.cursor r,
        readFrame cp.paranoia cp.paranoia.cursor) := by
    simp only [CdromParanoia.read_limited, u32_to_c_int, if_pos h,
      paranoia_read_limited]
  have hread : (cp.read log).2.2 =
      readFrame cp.paranoia cp.paranoia.cursor := by
    simp only [CdromParanoia.read, paranoia_read, paranoia_read_limited]
  refine ⟨_, _, _, hrl, (readFrame_full _ _).1, (readFrame_full _ _).2,
    ?_, ?_⟩
  · rw [hread]
    exact (readFrame_full _ _).1
  · rw [hread]
    exact (readFrame_full _ _).2

theorem read_returns_full_frame_witness :
    ∃ cp2 log2 frame,
      sampleSession.read_limited [] 20 = some (cp2, log2, frame) ∧
      frame.length = CD_FRAMEWORDS ∧
      (∀ x ∈ frame, -32768 ≤ x ∧ x < 32768) ∧
      (sampleSession.read []).2.2.length = CD_FRAMEWORDS ∧
      ∀ x ∈ (sampleSession.read []).2.2, -32768 ≤ x ∧ x < 32768 :=
  read_returns_full_frame sampleSession [] 20 (by norm_num)

/-- Helper: the engine seek either succeeds with a non-negative status
that becomes the new cursor, or fails with status `-9999` and an
unchanged state. -/
theorem paranoia_seek_cases (p : Paranoia) (index mode : Int) :
    (0 ≤ (paranoia_seek p index mode).1 ∧
      (paranoia_seek p index mode).2.cursor = (paranoia_seek p index mode).1) ∨
    ((paranoia_seek p index mode).1 = -9999 ∧
      (paranoia_seek p index mode).2 = p) := by
  unfold paranoia_seek
  by_cases h : seekTarget p index mode < 0 ∨
      seekTarget p index mode < p.firstSector ∨
      seekTarget p index mode > p.lastSector
  · rw [if_pos h]
    exact Or.inr ⟨rfl, rfl⟩
  · rw [if_neg h]
    push_neg at h
    exact Or.inl ⟨h.1, rfl⟩

/-- C6: seek is cursor-atomic — on success the returned absolute sector
becomes the new cursor; on a classified failure the cursor is left
unchanged.  Holds for every session state and every seek origin. -/
theorem seek_cursor_atomic (cp : CdromParanoia) (pos : SeekFrom) :
    (∀ s : Nat, (cp.seek pos).1 = .ok s →
      (cp.seek pos).2.paranoia.cursor = (s : Int)) ∧
    (∀ e : Error, (cp.seek pos).1 = .error e →
      (cp.seek pos).2.paranoia.cursor = cp.paranoia.cursor) := by
  rcases paranoia_seek_cases cp.paranoia pos.seekIndex pos.whence with
    ⟨h0, hc⟩ | ⟨h9, hp⟩
  · have hok : Error.from_raw_long
        (paranoia_seek cp.paranoia pos.seekIndex pos.whence).1 = .ok () := by
      unfold Error.from_raw_long
      rw [if_pos h0]
    constructor
    · intro s hs
      simp only [CdromParanoia.seek, hok] at hs ⊢
      obtain rfl : (paranoia_seek cp.paranoia pos.seekIndex pos.whence).1.toNat
          = s := by
        injection hs
      rw [hc, Int.toNat_of_nonneg h0]
    · intro e he
      simp only [CdromParanoia.seek, hok] at he
      cases he
  · have herr : Error.from_raw_long
        (paranoia_seek cp.paranoia pos.seekIndex pos.whence).1
          = .error ⟨-9999⟩ := by
      rw [h9]
      rfl
    constructor
    · intro s hs
      simp only [CdromParanoia.seek, herr] at hs
      cases hs
    · intro e he
      simp only [CdromParanoia.seek, herr]
      rw [hp]

theorem seek_cursor_atomic_witness :
    (sampleSession.seek (.start 5)).2.paranoia.cursor = ((5 : Nat) : Int) :=
  (seek_cursor_atomic sampleSession (.start 5)).1 5 (by rfl)

/-- C7 counterexample: `set_verbosity` is a state-changing handle
operation, yet it is callable through the shared borrow returned by
`CdromParanoia::drive`, since it takes `&self` — refuting "no
state-changing handle operation is possible through it". -/
theorem drive_accessor_counterexample :
    ¬ (∀ m : DriveMethod, callableViaDriveAccessor m = true →
        DriveMethod.stateChanging m = false) := by
  intro h
  exact absurd (h .set_verbosity (by decide)) (by decide)

/-- C7 (amended): after `init` consumes the drive by move, the only
subsequent path to the handle is the shared borrow returned by
`CdromParanoia::drive`; the only handle operation not reachable through
it is the owning `into_raw`, and the state-changing operations that
remain callable through it are exactly `set_verbosity`, `open` and
`set_speed`, because they take `&self`. -/
theorem drive_accessor_surface :
    (∀ m : DriveMethod, callableViaDriveAccessor m = false ↔ m = .into_raw) ∧
    (∀ m : DriveMethod,
      (callableViaDriveAccessor m = true ∧ DriveMethod.stateChanging m = true)
        ↔ (m = .set_verbosity ∨ m = .open' ∨ m = .set_speed)) := by
  decide

/-- C8: on destruction of a session the engine resources are released
first (`paranoia_free`) and the owned drive is then released
(`cdda_close`), each exactly once; the drive's own drop glue also
releases exactly once. -/
theorem session_drop_release_order :
    CdromParanoia.dropGlue = [.paranoia_free, .cdda_close] ∧
      CdromParanoia.dropGlue.count .paranoia_free = 1 ∧
      CdromParanoia.dropGlue.count .cdda_close = 1 ∧
      CdromDrive.dropGlue.count .cdda_close = 1 := by
  decide

/-- C10: every per-track query aborts in the `u32` → `c_int` narrowing
(`try_into().unwrap()`) when the track number exceeds `2^31 - 1`, rather
than returning a classified error; below that bound the narrowing never
aborts and each query returns a classified result. -/
theorem track_queries_narrow_abort (d : CdromDrive) (track : Nat) :
    (2147483648 ≤ track →
      d.track_first_sector track = none ∧
      d.track_last_sector track = none ∧
      d.track_channels track = none ∧
      d.track_audiop track = none ∧
      d.track_copyp track = none ∧
      d.track_preemp track = none) ∧
    (track < 2147483648 →
      (d.track_first_sector track).isSome ∧
      (d.track_last_sector track).isSome ∧
      (d.track_channels track).isSome ∧
      (d.track_audiop track).isSome ∧
      (d.track_copyp track).isSome ∧
      (d.track_preemp track).isSome) := by
  constructor
  · intro h
    have hn : u32_to_c_int track = none := by
      unfold u32_to_c_int
      rw [if_neg (by omega)]
    simp [CdromDrive.track_first_sector, CdromDrive.track_last_sector,
      CdromDrive.track_channels, CdromDrive.track_audiop,
      CdromDrive.track_copyp, CdromDrive.track_preemp, hn]
  · intro h
    have hs : u32_to_c_int track = some (track : Int) := by
      unfold u32_to_c_int
      rw [if_pos h]
    simp [CdromDrive.track_first_sector, CdromDrive.track_last_sector,
      CdromDrive.track_channels, CdromDrive.track_audiop,
      CdromDrive.track_copyp, CdromDrive.track_preemp, hs]

theorem track_queries_narrow_abort_witness :
    (sampleDrive.track_first_sector 2147483648 = none ∧
      sampleDrive.track_last_sector 2147483648 = none ∧
      sampleDrive.track_channels 2147483648 = none ∧
      sampleDrive.track_audiop 2147483648 = none ∧
      sampleDrive.track_copyp 2147483648 = none ∧
      sampleDrive.track_preemp 2147483648 = none) ∧
    ((sampleDrive.track_first_sector 1).isSome ∧
      (sampleDrive.track_last_sector 1).isSome ∧
      (sampleDrive.track_channels 1).isSome ∧
      (sampleDrive.track_audiop 1).isSome ∧
      (sampleDrive.track_copyp 1).isSome ∧
      (sampleDrive.track_preemp 1).isSome) :=
  ⟨(track_queries_narrow_abort sampleDrive 2147483648).1 (by norm_num),
   (track_queries_narrow_abort sampleDrive 1).2 (by norm_num)⟩

theorem drive_accessor_surface_witness :
    callableViaDriveAccessor .open' = true ∧
      DriveMethod.stateChanging .open' = true :=
  (drive_accessor_surface.2 .open').mpr (Or.inr (Or.inl rfl))
